import Mathlib

/-!
Shallow embedding of the gameplay simulation of "The Librarian" game
(`src/src/game/states/PlayingState.js`).

JavaScript numbers are modelled as exact rationals (`ℚ`).  The entity
classes (`Player`, `Kid`, `Shelf`, `Book`) live outside the given source
tree; the few operations the simulation calls on them are modelled from
the spec and carry a doc comment saying so.  State-manager calls
(`pushState` / `changeState`) are recorded in a request log on the world
state, in call order.
-/

namespace Librarian

/-- Colors a book or shelf can have (`generateLibraryLayout`, line 465). -/
inductive BookColor
  | red
  | blue
  | green
  | yellow
  | purple
  | orange
deriving DecidableEq

/-- Behavioral states of a kid (spec §3; the interaction system only ever
writes `fleeing`, line 639). -/
inductive KidState
  | seeking
  | carrying
  | fleeing
deriving DecidableEq

/-- A call made to the external state manager, in the order issued:
`pushState('paused')` (line 190), `pushState('upgradeSelection')`
(line 577), `changeState('gameover', won: true)` (line 199),
`changeState('gameover', won: false)` (line 206). -/
inductive StateRequest
  | pause
  | upgradeSelection
  | victory
  | defeat
deriving DecidableEq

/-- Chaos clamp from `updateChaos` line 246:
`Math.max(0, Math.min(maxChaos, chaosLevel))`. -/
def clampChaos (maxChaos x : ℚ) : ℚ := max 0 (min maxChaos x)

/-- Per-tick chaos update, `PlayingState.updateChaos` lines 233-247.
`0.1` and `0.5` are written `1/10` and `1/2`. -/
def updateChaosLevel (chaos maxChaos : ℚ) (booksOnFloor : ℕ) (damp dt : ℚ) : ℚ :=
  if 0 < booksOnFloor then
    clampChaos maxChaos (chaos + (booksOnFloor : ℚ) * (1/10) * dt * (1 - damp / 100))
  else if 0 < chaos then
    clampChaos maxChaos (chaos - 1/2 * dt)
  else
    clampChaos maxChaos chaos

/-- The progression fields of `game.gameData` together with the player
stamina fields that the leveling loop refills (lines 552-579). -/
structure XPState where
  xp : ℚ
  xpToNext : ℚ
  playerLevel : ℕ
  stamina : ℚ
  maxStamina : ℚ
deriving DecidableEq

/-- `Math.floor(100 * Math.pow(1.45, playerLevel - 1))` (line 576),
evaluated at the already-incremented level. -/
def xpToNextFor (lvl : ℕ) : ℚ := ((⌊(100 : ℚ) * (29/20 : ℚ) ^ (lvl - 1)⌋ : ℤ) : ℚ)

/-- One iteration of the leveling `while` loop, lines 570-577: subtract the
old threshold, increment the level, refill stamina to max, recompute the
threshold from the new level. -/
def levelUp (st : XPState) : XPState :=
  { st with
    xp := st.xp - st.xpToNext,
    playerLevel := st.playerLevel + 1,
    stamina := st.maxStamina,
    xpToNext := xpToNextFor (st.playerLevel + 1) }

/-- The leveling `while` loop (lines 570-578), fueled to make it total in
Lean; `awardFuel` below always supplies enough fuel.  The accumulator
records, in order, the level reached by each iteration — one
`pushState('upgradeSelection')` per entry. -/
def awardLoop : ℕ → XPState → List ℕ → XPState × List ℕ
  | 0, st, acc => (st, acc)
  | fuel+1, st, acc =>
    if st.xpToNext ≤ st.xp then awardLoop fuel (levelUp st) (acc ++ [st.playerLevel + 1])
    else (st, acc)

/-- Fuel bound for `awardLoop`: after the first iteration every recomputed
threshold is at least 100, so `⌊xp⌋ + 1` iterations always suffice. -/
def awardFuel (st : XPState) : ℕ := (⌊st.xp⌋).toNat + 1

/-- `awardXP` restricted to the progression state (lines 552-556 and
570-578): floor the multiplied amount, add it to `xp`, then run the
leveling loop.  Returns the final state, the list of levels for which an
upgrade interrupt was requested (in request order), and the applied
(floored) amount. -/
def awardXP (amount mult : ℚ) (st : XPState) : XPState × List ℕ × ℤ :=
  let applied := ⌊amount * mult⌋
  let st1 := { st with xp := st.xp + (applied : ℚ) }
  ((awardLoop (awardFuel st1) st1 []).1, (awardLoop (awardFuel st1) st1 []).2, applied)

/-- A book entity.  Modelled from the spec: the `Book` class is not under
`src/`; per §3 it has a position, a bounding box, a color and mutually
exclusive `onFloor` / `held` / `shelved` states, which `PlayingState`
reads through the `isHeld` / `isShelved` flags (lines 235, 263, 515).
Books are identified by their index in the world book list. -/
structure Book where
  x : ℚ
  y : ℚ
  width : ℚ
  height : ℚ
  color : BookColor
  isHeld : Bool
  isShelved : Bool
deriving DecidableEq

/-- Modelled from the spec: entity center point (`getCenterX`), position
plus half the bounding box. -/
def Book.centerX (b : Book) : ℚ := b.x + b.width / 2

/-- Modelled from the spec: entity center point (`getCenterY`). -/
def Book.centerY (b : Book) : ℚ := b.y + b.height / 2

/-- Modelled from the spec: `book.pickup(player)` moves the book to the
`held` state (§4.5). -/
def Book.pickup (b : Book) : Book := { b with isHeld := true }

def defaultBook : Book :=
  { x := 0, y := 0, width := 0, height := 0, color := BookColor.red,
    isHeld := false, isShelved := false }

/-- Player stats consumed by the simulation (spec §3). -/
structure PlayerStats where
  pickupRadius : ℚ
  returnRadius : ℚ
  repelRadius : ℚ
  carrySlots : ℕ
  stamina : ℚ
  maxStamina : ℚ
  chaosDampening : ℚ
  xpMultiplier : ℚ
deriving DecidableEq

/-- The player entity.  Modelled from the spec: the `Player` class is not
under `src/`; per §3 it has a position, a bounding box, stats, and an
ordered list of carried books (stored here as indices into the world book
list). -/
structure Player where
  x : ℚ
  y : ℚ
  width : ℚ
  height : ℚ
  stats : PlayerStats
  carriedBooks : List ℕ
deriving DecidableEq

/-- Modelled from the spec: entity center point (`getCenterX`). -/
def Player.centerX (p : Player) : ℚ := p.x + p.width / 2

/-- Modelled from the spec: entity center point (`getCenterY`). -/
def Player.centerY (p : Player) : ℚ := p.y + p.height / 2

/-- Modelled from the spec: `player.pickupBook(book)` (§4.5, §6) appends
the book to the carried list when there is free carry capacity and
reports success. -/
def Player.pickupBook (p : Player) (bid : ℕ) : Player × Bool :=
  if p.carriedBooks.length < p.stats.carrySlots then
    ({ p with carriedBooks := p.carriedBooks ++ [bid] }, true)
  else (p, false)

/-- A kid entity.  Modelled from the spec: the `Kid` class is not under
`src/`; per §3 it has a position, a bounding box, an aggression level, a
behavioral state, an optional carried book and a drop timer. -/
structure Kid where
  x : ℚ
  y : ℚ
  width : ℚ
  height : ℚ
  aggressionLevel : ℕ
  state : KidState
  carriedBook : Option ℕ
  dropBookTimer : ℚ
deriving DecidableEq

/-- Modelled from the spec: entity center point (`getCenterX`). -/
def Kid.centerX (k : Kid) : ℚ := k.x + k.width / 2

/-- Modelled from the spec: entity center point (`getCenterY`). -/
def Kid.centerY (k : Kid) : ℚ := k.y + k.height / 2

def defaultKid : Kid :=
  { x := 0, y := 0, width := 0, height := 0, aggressionLevel := 1,
    state := KidState.seeking, carriedBook := none, dropBookTimer := 0 }

/-- A shelf entity.  Modelled from the spec: the `Shelf` class is not
under `src/`; per §3 it has a position, a bounding box, a color, a fixed
capacity and an ordered slot list of books (stored as indices). -/
structure Shelf where
  x : ℚ
  y : ℚ
  width : ℚ
  height : ℚ
  color : BookColor
  capacity : ℕ
  slots : List ℕ
deriving DecidableEq

/-- Modelled from the spec: `shelf.hasEmptySlots()` (§4.5). -/
def Shelf.hasEmptySlots (s : Shelf) : Prop := s.slots.length < s.capacity

instance (s : Shelf) : Decidable s.hasEmptySlots := by
  unfold Shelf.hasEmptySlots; infer_instance

/-- Modelled from the spec: `shelf.addBook(book)` (§3, §4.5) accepts the
book only when its color matches the shelf and a slot is free; returns
the updated shelf and a success flag. -/
def Shelf.addBook (s : Shelf) (bid : ℕ) (c : BookColor) : Shelf × Bool :=
  if c = s.color ∧ s.hasEmptySlots then ({ s with slots := s.slots ++ [bid] }, true)
  else (s, false)

def defaultShelf : Shelf :=
  { x := 0, y := 0, width := 0, height := 0, color := BookColor.red,
    capacity := 0, slots := [] }

/-- Modelled from the spec: `player.shelveBook(shelf)` (§4.5) removes and
returns the first carried book whose color matches the shelf's color
(color match delegated to the Player/Shelf collaborators), or returns
nothing. -/
def Player.shelveBook (books : List Book) (p : Player) (c : BookColor) : Option ℕ × Player :=
  match p.carriedBooks.find? (fun bid => decide ((books.getD bid defaultBook).color = c)) with
  | some bid => (some bid, { p with carriedBooks := p.carriedBooks.erase bid })
  | none => (none, p)

/-- A pooled floating-text particle (lines 42-50 and 559-567); the only
kind in the source is xp text, so the `type` tag is omitted and the text
is stored as the xp amount it displays. -/
structure Particle where
  x : ℚ
  y : ℚ
  amount : ℤ
  vy : ℚ
  lifetime : ℚ
  age : ℚ
deriving DecidableEq

/-- `game.gameData` (lines 92-104). -/
structure GameData where
  chaosLevel : ℚ
  maxChaos : ℚ
  playerLevel : ℕ
  xp : ℚ
  xpToNext : ℚ
  elapsedTime : ℚ
  targetTime : ℚ
  isPaused : Bool
  booksCollected : ℕ
  booksShelved : ℕ
  kidsRepelled : ℕ
deriving DecidableEq

/-- The mutable state `PlayingState` owns: `gameData`, the entity lists,
and the spawn-scheduler fields (lines 35-61), plus the log of requests
issued to the external state manager. -/
structure World where
  gameData : GameData
  player : Option Player
  kids : List Kid
  books : List Book
  shelves : List Shelf
  particles : List Particle
  maxKids : ℕ
  kidSpawnTimer : ℚ
  kidSpawnInterval : ℚ
  requests : List StateRequest
deriving DecidableEq

/-- The proximity test of `checkBookPickup` / `checkBookSnatching`
(lines 517-522, 626-631): `Math.sqrt(dx*dx + dy*dy) <= r`, which for
real numbers is equivalent to `0 ≤ r ∧ dx*dx + dy*dy ≤ r*r`. -/
def withinDist (dx dy r : ℚ) : Prop := 0 ≤ r ∧ dx * dx + dy * dy ≤ r * r

instance (dx dy r : ℚ) : Decidable (withinDist dx dy r) := by
  unfold withinDist; infer_instance

/-- Rectangle-with-margin proximity of `isPlayerNearShelf`
(lines 493-505). -/
def isPlayerNearShelf (p : Player) (s : Shelf) (d : ℚ) : Prop :=
  p.x < s.x + s.width + d ∧ s.x - d < p.x + p.width ∧
  p.y < s.y + s.height + d ∧ s.y - d < p.y + p.height

instance (p : Player) (s : Shelf) (d : ℚ) : Decidable (isPlayerNearShelf p s d) := by
  unfold isPlayerNearShelf; infer_instance

/-- The four fixed kid spawn points (lines 75-80), selected by the random
index. -/
def spawnPoint (r : Fin 4) : ℚ × ℚ :=
  match r.val with
  | 0 => (50, 520)
  | 1 => (1550, 520)
  | 2 => (800, 50)
  | _ => (800, 990)

/-- The difficulty ramp of `updateKidSpawning` (lines 442-445): the stored
`maxKids` is overwritten with 10 after five minutes, 5 after two, and is
otherwise left as it is. -/
def rampMaxKids (elapsed : ℚ) (current : ℕ) : ℕ :=
  if 5 < elapsed / 60 then 10 else if 2 < elapsed / 60 then 5 else current

/-- Aggression assigned to a newly spawned kid (lines 452-454). -/
def spawnAggression (elapsed : ℚ) : ℕ :=
  if 10 ≤ elapsed / 60 then 3 else if 5 ≤ elapsed / 60 then 2 else 1

/-- Modelled from the spec: construction of a spawned kid (line 457; the
`Kid` constructor is not under `src/`).  Position comes from the chosen
spawn point, the aggression level is fixed at spawn time (§4.4), the kid
starts seeking with no carried book; the bounding-box size is a fixed
entity constant. -/
def mkKid (p : ℚ × ℚ) (aggr : ℕ) : Kid :=
  { x := p.1, y := p.2, width := 32, height := 32, aggressionLevel := aggr,
    state := KidState.seeking, carriedBook := none, dropBookTimer := 0 }

/-- The spawn-scheduler fields of `PlayingState` (lines 59-61). -/
structure SpawnState where
  maxKids : ℕ
  kidSpawnTimer : ℚ
  kidSpawnInterval : ℚ
deriving DecidableEq

/-- `PlayingState.updateKidSpawning` (lines 441-462) on the scheduler
state alone: recompute `maxKids`, return untouched while at capacity,
otherwise decrement the timer and spawn exactly when it reaches zero,
resetting it to the interval. -/
def updateKidSpawning (elapsed dt : ℚ) (kidCount : ℕ) (r : Fin 4) (s : SpawnState) :
    SpawnState × Option Kid :=
  let m := rampMaxKids elapsed s.maxKids
  let s1 : SpawnState := { s with maxKids := m }
  if m ≤ kidCount then (s1, none)
  else
    let t := s1.kidSpawnTimer - dt
    if t ≤ 0 then
      ({ s1 with kidSpawnTimer := s1.kidSpawnInterval },
        some (mkKid (spawnPoint r) (spawnAggression elapsed)))
    else ({ s1 with kidSpawnTimer := t }, none)

/-- `this.books.filter(book => !book.isHeld && !book.isShelved).length`
(line 235). -/
def booksOnFloorCount (w : World) : ℕ :=
  (w.books.filter (fun b => !b.isHeld && !b.isShelved)).length

/-- `PlayingState.updateChaos` (lines 233-247) on the world: dampening is
read from the player (`0` when absent, matching `?.stats?.chaosDampening
|| 0`). -/
def updateChaos (dt : ℚ) (w : World) : World :=
  let damp := match w.player with
    | some p => p.stats.chaosDampening
    | none => 0
  { w with gameData := { w.gameData with
      chaosLevel :=
        updateChaosLevel w.gameData.chaosLevel w.gameData.maxChaos
          (booksOnFloorCount w) damp dt } }

/-- `PlayingState.awardXP` (lines 552-579) on the world: the multiplier
comes from `player?.getXPMultiplier() || 1` (so a missing player or a
JavaScript-falsy multiplier of 0 both give 1), a floating xp particle is
emitted above the player, the leveling loop of `awardXP` runs, and one
`upgradeSelection` push is logged per level gained. -/
def worldAwardXP (amount : ℚ) (w : World) : World :=
  let mult : ℚ := match w.player with
    | some p => if p.stats.xpMultiplier = 0 then 1 else p.stats.xpMultiplier
    | none => 1
  let st : XPState :=
    { xp := w.gameData.xp, xpToNext := w.gameData.xpToNext,
      playerLevel := w.gameData.playerLevel,
      stamina := match w.player with
        | some p => p.stats.stamina
        | none => 0,
      maxStamina := match w.player with
        | some p => p.stats.maxStamina
        | none => 0 }
  let res := awardXP amount mult st
  { w with
    gameData := { w.gameData with
      xp := res.1.xp, xpToNext := res.1.xpToNext, playerLevel := res.1.playerLevel },
    player := match w.player with
      | some p => some { p with stats := { p.stats with stamina := res.1.stamina } }
      | none => none,
    particles := match w.player with
      | some p => w.particles ++
          [{ x := p.centerX, y := p.y - 10, amount := res.2.2, vy := -50,
             lifetime := 3/2, age := 0 }]
      | none => w.particles,
    requests := w.requests ++ res.2.1.map (fun _ => StateRequest.upgradeSelection) }

/-- One iteration of the book loop in `checkBookPickup` (lines 514-531),
acting on the book at index `i`; the radius and the player center were
computed before the loop. -/
def pickupStep (radius cx cy : ℚ) (w : World) (i : ℕ) : World :=
  match w.player with
  | none => w
  | some p =>
    let b := w.books.getD i defaultBook
    if b.isHeld || b.isShelved then w
    else if withinDist (b.centerX - cx) (b.centerY - cy) radius then
      match p.pickupBook i with
      | (p1, true) =>
        worldAwardXP 5 { w with
          player := some p1,
          books := w.books.set i b.pickup,
          gameData := { w.gameData with
            booksCollected := w.gameData.booksCollected + 1,
            chaosLevel := w.gameData.chaosLevel - 1/2 } }
      | (_, false) => w
    else w

/-- `PlayingState.checkBookPickup` (lines 507-532). -/
def checkBookPickup (w : World) : World :=
  match w.player with
  | none => w
  | some p =>
    (List.range w.books.length).foldl
      (pickupStep (p.stats.pickupRadius * 32) p.centerX p.centerY) w

/-- One iteration of the kid loop in `checkBookSnatching` (lines 623-645),
acting on the kid at index `i`.  Note the source clears the kid's carried
reference and drop timer before asking the player to take the book, and
only forces the `fleeing` state when the transfer succeeds. -/
def snatchStep (radius cx cy : ℚ) (w : World) (i : ℕ) : World :=
  let k := w.kids.getD i defaultKid
  match k.carriedBook with
  | none => w
  | some bid =>
    if withinDist (k.centerX - cx) (k.centerY - cy) radius then
      let k1 : Kid := { k with carriedBook := none, dropBookTimer := 0 }
      let w1 := { w with kids := w.kids.set i k1 }
      match w1.player with
      | none => w1
      | some p =>
        match p.pickupBook bid with
        | (p1, true) =>
          worldAwardXP 7 { w1 with
            player := some p1,
            books := w1.books.set bid ((w1.books.getD bid defaultBook).pickup),
            kids := w1.kids.set i { k1 with state := KidState.fleeing },
            gameData := { w1.gameData with
              booksCollected := w1.gameData.booksCollected + 1,
              chaosLevel := w1.gameData.chaosLevel - 3/4 } }
        | (_, false) => w1
    else w

/-- `PlayingState.checkBookSnatching` (lines 616-646): the carry-capacity
check happens once, before the scan.  The snatch radius is read as
`player.repelRadius` (line 619), a property of the external `Player`
entity; following spec §3/§4.5 it is modelled as the `repelRadius` stat,
used raw with no `x32` unit conversion. -/
def checkBookSnatching (w : World) : World :=
  match w.player with
  | none => w
  | some p =>
    if p.stats.carrySlots ≤ p.carriedBooks.length then w
    else
      (List.range w.kids.length).foldl
        (snatchStep p.stats.repelRadius p.centerX p.centerY) w

/-- One iteration of the shelf loop in `checkBookShelving`
(lines 539-549), acting on the shelf at index `i`. -/
def shelveStep (radius : ℚ) (w : World) (i : ℕ) : World :=
  match w.player with
  | none => w
  | some p =>
    let s := w.shelves.getD i defaultShelf
    if isPlayerNearShelf p s radius ∧ s.hasEmptySlots then
      match Player.shelveBook w.books p s.color with
      | (some bid, p1) =>
        let b := w.books.getD bid defaultBook
        let res := Shelf.addBook s bid b.color
        if res.2 then
          worldAwardXP 10 { w with
            player := some p1,
            shelves := w.shelves.set i res.1,
            books := w.books.set bid { b with isShelved := true, isHeld := false },
            gameData := { w.gameData with
              booksShelved := w.gameData.booksShelved + 1,
              chaosLevel := w.gameData.chaosLevel - 1 } }
        else { w with player := some p1 }
      | (none, _) => w
    else w

/-- `PlayingState.checkBookShelving` (lines 534-550): returns immediately
when the player carries nothing. -/
def checkBookShelving (w : World) : World :=
  match w.player with
  | none => w
  | some p =>
    if p.carriedBooks.length = 0 then w
    else (List.range w.shelves.length).foldl (shelveStep (p.stats.returnRadius * 32)) w

/-- `PlayingState.updateParticles` (lines 581-594): age each particle,
apply the xp-text kinematics, keep only particles whose age is still
below their lifetime (expired ones go back to the pool). -/
def updateParticles (dt : ℚ) (w : World) : World :=
  let aged := w.particles.map (fun pt =>
    { pt with age := pt.age + dt, y := pt.y + pt.vy * dt, vy := pt.vy + 100 * dt })
  { w with particles := aged.filter (fun pt => decide (pt.age < pt.lifetime)) }

/-- `PlayingState.updateKidSpawning` on the world: runs the scheduler and
appends the spawned kid, if any, to the kid list. -/
def updateKidSpawningW (r : Fin 4) (dt : ℚ) (w : World) : World :=
  let res := updateKidSpawning w.gameData.elapsedTime dt w.kids.length r
    { maxKids := w.maxKids, kidSpawnTimer := w.kidSpawnTimer,
      kidSpawnInterval := w.kidSpawnInterval }
  { w with
    maxKids := res.1.maxKids,
    kidSpawnTimer := res.1.kidSpawnTimer,
    kids := match res.2 with
      | some k => w.kids ++ [k]
      | none => w.kids }

/-- `gameData.elapsedTime += deltaTime` (line 196). -/
def advanceTime (dt : ℚ) (w : World) : World :=
  { w with gameData := { w.gameData with elapsedTime := w.gameData.elapsedTime + dt } }

/-- `PlayingState.update` (lines 182-231).  `selfUpdate` stands for the
entity self-updates of lines 210-224 (player movement, shelf, book and
kid updates), which belong to entity classes outside `src/` and are
modelled from the spec as an arbitrary transformation run at that point
of the tick; `pauseKey` is the polled pause input; `r` feeds the spawn
scheduler's random spawn-point choice. -/
def update (selfUpdate : World → World) (pauseKey : Bool) (r : Fin 4) (dt : ℚ)
    (w : World) : World :=
  if pauseKey then { w with requests := w.requests ++ [StateRequest.pause] }
  else if w.gameData.isPaused then w
  else
    let w1 := advanceTime dt w
    if w1.gameData.targetTime ≤ w1.gameData.elapsedTime then
      { w1 with requests := w1.requests ++ [StateRequest.victory] }
    else
      let w2 := updateChaos dt w1
      if w2.gameData.maxChaos ≤ w2.gameData.chaosLevel then
        { w2 with requests := w2.requests ++ [StateRequest.defeat] }
      else
        updateParticles dt (checkBookShelving (checkBookSnatching (checkBookPickup
          (updateKidSpawningW r dt (selfUpdate w2)))))

/-! ### Concrete worlds used by counterexamples and witnesses -/

/-- A world holding one floor book right next to the player and nothing
else of interest: chaos sits at 0, so the pickup's immediate `-0.5` delta
drives it negative. -/
def W1 : World :=
  { gameData :=
      { chaosLevel := 0, maxChaos := 100, playerLevel := 1, xp := 0,
        xpToNext := 100, elapsedTime := 0, targetTime := 1000, isPaused := false,
        booksCollected := 0, booksShelved := 0, kidsRepelled := 0 },
    player := some
      { x := 0, y := 0, width := 32, height := 32,
        stats :=
          { pickupRadius := 2, returnRadius := 2, repelRadius := 50,
            carrySlots := 2, stamina := 50, maxStamina := 100, chaosDampening := 0,
            xpMultiplier := 1 },
        carriedBooks := [] },
    kids := [],
    books :=
      [{ x := 10, y := 0, width := 16, height := 16,
         color := BookColor.red, isHeld := false, isShelved := false }],
    shelves := [], particles := [], maxKids := 3, kidSpawnTimer := 100,
    kidSpawnInterval := 10, requests := [] }

/-- A world with one floor book in pickup range and a matching shelf with
a free slot in shelving range: a single tick picks the book up and then
shelves it. -/
def W2 : World :=
  { gameData :=
      { chaosLevel := 0, maxChaos := 100, playerLevel := 1, xp := 0,
        xpToNext := 100, elapsedTime := 0, targetTime := 1000, isPaused := false,
        booksCollected := 0, booksShelved := 0, kidsRepelled := 0 },
    player := some
      { x := 0, y := 0, width := 32, height := 32,
        stats :=
          { pickupRadius := 2, returnRadius := 2, repelRadius := 50,
            carrySlots := 2, stamina := 50, maxStamina := 100, chaosDampening := 0,
            xpMultiplier := 1 },
        carriedBooks := [] },
    kids := [],
    books :=
      [{ x := 10, y := 0, width := 16, height := 16,
         color := BookColor.red, isHeld := false, isShelved := false }],
    shelves :=
      [{ x := 40, y := 0, width := 64, height := 32, color := BookColor.red,
         capacity := 5, slots := [] }],
    particles := [], maxKids := 3, kidSpawnTimer := 100,
    kidSpawnInterval := 10, requests := [] }

/-- A second pickup-and-shelve world (blue theme, different geometry) for
the amended same-tick-shelving statement. -/
def W2b : World :=
  { gameData :=
      { chaosLevel := 0, maxChaos := 100, playerLevel := 1, xp := 0,
        xpToNext := 100, elapsedTime := 0, targetTime := 2000, isPaused := false,
        booksCollected := 0, booksShelved := 0, kidsRepelled := 0 },
    player := some
      { x := 200, y := 200, width := 32, height := 32,
        stats :=
          { pickupRadius := 3, returnRadius := 1, repelRadius := 10,
            carrySlots := 5, stamina := 10, maxStamina := 100, chaosDampening := 0,
            xpMultiplier := 1 },
        carriedBooks := [] },
    kids := [],
    books :=
      [{ x := 240, y := 200, width := 16, height := 16,
         color := BookColor.blue, isHeld := false, isShelved := false }],
    shelves :=
      [{ x := 230, y := 230, width := 64, height := 32, color := BookColor.blue,
         capacity := 2, slots := [] }],
    particles := [], maxKids := 3, kidSpawnTimer := 50,
    kidSpawnInterval := 10, requests := [] }

/-- Like `W2` but with `xp = 96`, so the 5 xp of the pickup crosses the
level-1 threshold and pushes an upgrade interrupt mid-tick. -/
def W3 : World :=
  { gameData :=
      { chaosLevel := 0, maxChaos := 100, playerLevel := 1, xp := 96,
        xpToNext := 100, elapsedTime := 0, targetTime := 1000, isPaused := false,
        booksCollected := 0, booksShelved := 0, kidsRepelled := 0 },
    player := some
      { x := 0, y := 0, width := 32, height := 32,
        stats :=
          { pickupRadius := 2, returnRadius := 2, repelRadius := 50,
            carrySlots := 2, stamina := 50, maxStamina := 100, chaosDampening := 0,
            xpMultiplier := 1 },
        carriedBooks := [] },
    kids := [],
    books :=
      [{ x := 10, y := 0, width := 16, height := 16,
         color := BookColor.red, isHeld := false, isShelved := false }],
    shelves :=
      [{ x := 40, y := 0, width := 64, height := 32, color := BookColor.red,
         capacity := 5, slots := [] }],
    particles := [], maxKids := 3, kidSpawnTimer := 100,
    kidSpawnInterval := 10, requests := [] }

/-- A world where two kids carry books inside the snatch radius while the
player has a single free carry slot: the first snatch fills the capacity
and the second falls into the partial-mutation branch. -/
def W4 : World :=
  { gameData :=
      { chaosLevel := 50, maxChaos := 100, playerLevel := 1, xp := 0,
        xpToNext := 100, elapsedTime := 0, targetTime := 1000, isPaused := false,
        booksCollected := 0, booksShelved := 0, kidsRepelled := 0 },
    player := some
      { x := 0, y := 0, width := 32, height := 32,
        stats :=
          { pickupRadius := 2, returnRadius := 2, repelRadius := 100,
            carrySlots := 1, stamina := 50, maxStamina := 100, chaosDampening := 0,
            xpMultiplier := 1 },
        carriedBooks := [] },
    kids :=
      [{ x := 0, y := 0, width := 32, height := 32, aggressionLevel := 1,
         state := KidState.carrying, carriedBook := some 0, dropBookTimer := 5 },
       { x := 10, y := 0, width := 32, height := 32, aggressionLevel := 1,
         state := KidState.carrying, carriedBook := some 1, dropBookTimer := 7 }],
    books :=
      [{ x := 0, y := 0, width := 16, height := 16,
         color := BookColor.red, isHeld := true, isShelved := false },
       { x := 10, y := 0, width := 16, height := 16,
         color := BookColor.green, isHeld := true, isShelved := false }],
    shelves := [], particles := [], maxKids := 3, kidSpawnTimer := 100,
    kidSpawnInterval := 10, requests := [] }

/-- A second capacity-filled snatch world (different geometry, with a
shelf present) for the book-ownership claim: after the pass, book 1 is
referenced by no floor, carrier or shelf container. -/
def W5 : World :=
  { gameData :=
      { chaosLevel := 30, maxChaos := 100, playerLevel := 1, xp := 0,
        xpToNext := 100, elapsedTime := 0, targetTime := 1000, isPaused := false,
        booksCollected := 0, booksShelved := 0, kidsRepelled := 0 },
    player := some
      { x := 100, y := 100, width := 32, height := 32,
        stats :=
          { pickupRadius := 2, returnRadius := 2, repelRadius := 200,
            carrySlots := 1, stamina := 40, maxStamina := 80, chaosDampening := 0,
            xpMultiplier := 1 },
        carriedBooks := [] },
    kids :=
      [{ x := 100, y := 100, width := 32, height := 32, aggressionLevel := 1,
         state := KidState.carrying, carriedBook := some 0, dropBookTimer := 3 },
       { x := 120, y := 100, width := 32, height := 32, aggressionLevel := 2,
         state := KidState.carrying, carriedBook := some 1, dropBookTimer := 4 }],
    books :=
      [{ x := 100, y := 100, width := 16, height := 16,
         color := BookColor.yellow, isHeld := true, isShelved := false },
       { x := 120, y := 100, width := 16, height := 16,
         color := BookColor.purple, isHeld := true, isShelved := false }],
    shelves :=
      [{ x := 500, y := 500, width := 64, height := 32, color := BookColor.purple,
         capacity := 2, slots := [] }],
    particles := [], maxKids := 3, kidSpawnTimer := 100,
    kidSpawnInterval := 10, requests := [] }

/-- A world in which the tick's time advance reaches the target while the
chaos level already sits above the maximum: both end conditions hold. -/
def Wv : World :=
  { gameData :=
      { chaosLevel := 150, maxChaos := 100, playerLevel := 1, xp := 0,
        xpToNext := 100, elapsedTime := 995, targetTime := 996, isPaused := false,
        booksCollected := 0, booksShelved := 0, kidsRepelled := 0 },
    player := none, kids := [], books := [], shelves := [], particles := [],
    maxKids := 3, kidSpawnTimer := 10, kidSpawnInterval := 10, requests := [] }

/-! ### Helper lemmas -/

theorem awardLoop_zero (fuel : ℕ) (st : XPState) (acc : List ℕ)
    (h : st.xp < st.xpToNext) : awardLoop fuel st acc = (st, acc) := by
  cases fuel <;> simp [awardLoop, not_le.mpr h]

theorem awardLoop_go (fuel : ℕ) (st : XPState) (acc : List ℕ) (h1 : fuel ≠ 0)
    (h2 : st.xpToNext ≤ st.xp) :
    awardLoop fuel st acc = awardLoop (fuel - 1) (levelUp st) (acc ++ [st.playerLevel + 1]) := by
  cases fuel with
  | zero => exact absurd rfl h1
  | succ f => simp [awardLoop, h2]

theorem one_le_ratio_pow (n : ℕ) : (1 : ℚ) ≤ (29/20 : ℚ) ^ n := by
  induction n with
  | zero => norm_num
  | succ k ih => rw [pow_succ]; nlinarith

theorem xpToNextFor_ge (lvl : ℕ) : (100 : ℚ) ≤ xpToNextFor lvl := by
  unfold xpToNextFor
  have h1 := one_le_ratio_pow (lvl - 1)
  have h3 : (100 : ℤ) ≤ ⌊(100 : ℚ) * (29/20 : ℚ) ^ (lvl - 1)⌋ := by
    rw [Int.le_floor]; push_cast; nlinarith
  exact_mod_cast h3

theorem awardLoop_xp_lt (fuel : ℕ) :
    ∀ (st : XPState) (acc : List ℕ), 1 ≤ st.xpToNext → (⌊st.xp⌋).toNat < fuel →
      (awardLoop fuel st acc).1.xp < (awardLoop fuel st acc).1.xpToNext := by
  induction fuel with
  | zero => intro st acc h1 h2; omega
  | succ f ih =>
    intro st acc h1 h2
    by_cases hc : st.xpToNext ≤ st.xp
    · simp only [awardLoop, if_pos hc]
      apply ih
      · have := xpToNextFor_ge (st.playerLevel + 1)
        simp only [levelUp]
        linarith
      · have hx1 : (1 : ℚ) ≤ st.xp := le_trans h1 hc
        have hfl : 1 ≤ ⌊st.xp⌋ := by
          rw [Int.le_floor]; exact_mod_cast hx1
        have hsub : st.xp - st.xpToNext ≤ st.xp - ((1 : ℤ) : ℚ) := by push_cast; linarith
        have key : ⌊st.xp - st.xpToNext⌋ ≤ ⌊st.xp⌋ - 1 := by
          calc ⌊st.xp - st.xpToNext⌋ ≤ ⌊st.xp - ((1 : ℤ) : ℚ)⌋ := Int.floor_le_floor hsub
            _ = ⌊st.xp⌋ - 1 := Int.floor_sub_int st.xp 1
        simp only [levelUp]
        omega
    · simp only [awardLoop, if_neg hc]
      exact not_le.mp hc

theorem awardLoop_level_le (fuel : ℕ) :
    ∀ (st : XPState) (acc : List ℕ),
      st.playerLevel ≤ (awardLoop fuel st acc).1.playerLevel := by
  induction fuel with
  | zero => intro st acc; exact le_refl _
  | succ f ih =>
    intro st acc
    by_cases hc : st.xpToNext ≤ st.xp
    · simp only [awardLoop, if_pos hc]
      have h2 := ih (levelUp st) (acc ++ [st.playerLevel + 1])
      have hl : (levelUp st).playerLevel = st.playerLevel + 1 := rfl
      omega
    · simp only [awardLoop, if_neg hc]
      exact le_refl _

theorem awardLoop_pushes (fuel : ℕ) :
    ∀ (st : XPState) (acc : List ℕ),
      (awardLoop fuel st acc).2 = acc ++
        (List.range ((awardLoop fuel st acc).1.playerLevel - st.playerLevel)).map
          (fun i => st.playerLevel + 1 + i) := by
  induction fuel with
  | zero => intro st acc; simp [awardLoop]
  | succ f ih =>
    intro st acc
    by_cases hc : st.xpToNext ≤ st.xp
    · simp only [awardLoop, if_pos hc]
      rw [ih (levelUp st) (acc ++ [st.playerLevel + 1])]
      have hmono := awardLoop_level_le f (levelUp st) (acc ++ [st.playerLevel + 1])
      have hl : (levelUp st).playerLevel = st.playerLevel + 1 := rfl
      simp only [hl] at hmono ⊢
      have hD : (awardLoop f (levelUp st) (acc ++ [st.playerLevel + 1])).1.playerLevel -
          st.playerLevel =
          ((awardLoop f (levelUp st) (acc ++ [st.playerLevel + 1])).1.playerLevel -
            (st.playerLevel + 1)) + 1 := by omega
      rw [hD, List.range_succ_eq_map, List.map_cons, List.map_map, List.append_assoc,
        List.singleton_append]
      refine congrArg (fun l => acc ++ l) ?_
      rw [Nat.add_zero]
      refine congrArg (fun l => (st.playerLevel + 1) :: l) ?_
      apply List.map_congr_left
      intro a _
      simp only [Function.comp_apply]
      omega
    · simp only [awardLoop, if_neg hc]
      simp

/-! ### Claim theorems: chaos model -/

/-- C1 (amended): the per-tick chaos update always clamps its result into
`[0, maxChaos]`; only the immediate discrete-event deltas can leave the
chaos level transiently outside the range until the next tick's update
(see the counterexample `chaos_negative_after_pickup_delta`). -/
theorem updateChaosLevel_bounds (chaos maxChaos damp dt : ℚ) (count : ℕ)
    (h : 0 ≤ maxChaos) :
    0 ≤ updateChaosLevel chaos maxChaos count damp dt ∧
      updateChaosLevel chaos maxChaos count damp dt ≤ maxChaos := by
  unfold updateChaosLevel clampChaos
  split_ifs <;> exact ⟨le_max_left 0 _, max_le h (min_le_left _ _)⟩

/-- C1 witness: the clamp bound evaluated at a concrete input. -/
theorem updateChaosLevel_bounds_spot :
    (0 : ℚ) ≤ 100 ∧
      (0 ≤ updateChaosLevel 0 100 3 0 1 ∧ updateChaosLevel 0 100 3 0 1 ≤ 100) :=
  ⟨by norm_num, updateChaosLevel_bounds 0 100 0 1 3 (by norm_num)⟩

/-- C9: the per-tick chaos update adds
`booksOnFloor * 0.1 * dt * (1 - dampening/100)` when books lie on the
floor, otherwise decays by `0.5 * dt` when chaos is positive (stated away
from the clamp boundary, where the formula applies verbatim); with no
floor books, chaos 10 and `dt = 1` the result is `9.5`, and with two
floor books, no dampening and `dt = 1` the increment is `0.2`. -/
theorem updateChaosLevel_formula (chaos maxChaos damp dt : ℚ) (count : ℕ) :
    (0 < count → 0 ≤ chaos + (count : ℚ) * (1/10) * dt * (1 - damp / 100) →
      chaos + (count : ℚ) * (1/10) * dt * (1 - damp / 100) ≤ maxChaos →
      updateChaosLevel chaos maxChaos count damp dt =
        chaos + (count : ℚ) * (1/10) * dt * (1 - damp / 100)) ∧
    (count = 0 → 0 < chaos → 0 ≤ chaos - 1/2 * dt → chaos - 1/2 * dt ≤ maxChaos →
      updateChaosLevel chaos maxChaos count damp dt = chaos - 1/2 * dt) ∧
    updateChaosLevel 10 100 0 0 1 = 19/2 ∧
    updateChaosLevel 0 100 2 0 1 = 0 + (2 : ℚ) * (1/10) * 1 * (1 - 0 / 100) := by
  refine ⟨?_, ?_, ?_, ?_⟩
  · intro h1 h2 h3
    unfold updateChaosLevel clampChaos
    rw [if_pos h1, min_eq_right h3, max_eq_right h2]
  · intro hc h1 h2 h3
    unfold updateChaosLevel clampChaos
    rw [if_neg (by omega : ¬ 0 < count), if_pos h1, min_eq_right h3, max_eq_right h2]
  · norm_num [updateChaosLevel, clampChaos, min_def, max_def]
  · norm_num [updateChaosLevel, clampChaos, min_def, max_def]

/-- C9 witness: the accrual branch evaluated at a concrete input. -/
theorem updateChaosLevel_formula_spot :
    updateChaosLevel 0 100 1 0 1 = 0 + (1 : ℚ) * (1/10) * 1 * (1 - 0 / 100) :=
  (updateChaosLevel_formula 0 100 0 1 1).1 (by norm_num) (by norm_num) (by norm_num)

/-! ### Claim theorems: progression -/

/-- C6: `awardXP(80)` with multiplier 1 from `xp = 50`, `xpToNext = 100`,
level 1 (player stamina 40 of 100) leaves `xp = 30`, level 2,
`xpToNext = ⌊100·1.45¹⌋ = 145`, refills stamina to its maximum, and fires
exactly one upgrade interrupt. -/
theorem awardXP_basic_example :
    awardXP 80 1 ⟨50, 100, 1, 40, 100⟩ = (⟨30, 145, 2, 100, 100⟩, [2], 80) := by
  norm_num [awardXP, awardFuel, awardLoop_zero, awardLoop_go, levelUp, xpToNextFor,
    Int.toNat_eq_zero]

/-- C7: for any award from a state whose threshold is at least 1 (every
reachable threshold is at least 100), the state left behind satisfies
`xp < xpToNext`, and whenever the call crosses exactly two level
thresholds it fires exactly two upgrade interrupts, in ascending level
order. -/
theorem awardXP_two_levels (amount mult : ℚ) (st : XPState) (h1 : 1 ≤ st.xpToNext) :
    (awardXP amount mult st).1.xp < (awardXP amount mult st).1.xpToNext ∧
    ((awardXP amount mult st).1.playerLevel = st.playerLevel + 2 →
      (awardXP amount mult st).2.1 = [st.playerLevel + 1, st.playerLevel + 2]) := by
  constructor
  · simp only [awardXP]
    apply awardLoop_xp_lt
    · exact h1
    · simp only [awardFuel]
      omega
  · intro h2
    simp only [awardXP] at h2 ⊢
    rw [awardLoop_pushes]
    simp only [h2, Nat.add_sub_cancel_left]
    have hr : List.range 2 = [0, 1] := by decide
    rw [hr]
    simp only [List.map_cons, List.map_nil, List.nil_append, List.cons.injEq, and_true]

/-- C7 witness: a concrete award that crosses exactly two thresholds. -/
theorem awardXP_two_levels_spot :
    (1 : ℚ) ≤ (100 : ℚ) ∧
    ((awardXP 400 1 ⟨0, 100, 1, 50, 100⟩).1.xp <
        (awardXP 400 1 ⟨0, 100, 1, 50, 100⟩).1.xpToNext ∧
      ((awardXP 400 1 ⟨0, 100, 1, 50, 100⟩).1.playerLevel = 1 + 2 →
        (awardXP 400 1 ⟨0, 100, 1, 50, 100⟩).2.1 = [1 + 1, 1 + 2])) :=
  ⟨by norm_num, awardXP_two_levels 400 1 ⟨0, 100, 1, 50, 100⟩ (by norm_num)⟩

/-! ### Claim theorems: spawn scheduler -/

/-- C8: the spawn scheduler stores the recomputed `maxKids`; while the kid
count is at or above it nothing spawns and the timer is untouched;
`maxKids` is 3 at `elapsedTime = 0` (from the initial 3) and 10 at
`elapsedTime = 301`; below the cap the timer drops by `dt`, a kid spawns
exactly when the decremented timer reaches 0 — placed at one of the four
fixed spawn points, with the timer reset to the interval — and otherwise
the decremented timer is kept. -/
theorem updateKidSpawning_spec (elapsed dt : ℚ) (kidCount : ℕ) (r : Fin 4)
    (s : SpawnState) :
    ((updateKidSpawning elapsed dt kidCount r s).1.maxKids =
      rampMaxKids elapsed s.maxKids) ∧
    (rampMaxKids elapsed s.maxKids ≤ kidCount →
      (updateKidSpawning elapsed dt kidCount r s).2 = none ∧
      (updateKidSpawning elapsed dt kidCount r s).1.kidSpawnTimer = s.kidSpawnTimer) ∧
    rampMaxKids 0 3 = 3 ∧
    rampMaxKids 301 3 = 10 ∧
    (kidCount < rampMaxKids elapsed s.maxKids →
      ((updateKidSpawning elapsed dt kidCount r s).2.isSome ↔
        s.kidSpawnTimer - dt ≤ 0) ∧
      (s.kidSpawnTimer - dt ≤ 0 →
        (updateKidSpawning elapsed dt kidCount r s).1.kidSpawnTimer =
          s.kidSpawnInterval ∧
        (updateKidSpawning elapsed dt kidCount r s).2 =
          some (mkKid (spawnPoint r) (spawnAggression elapsed)) ∧
        (spawnPoint r = (50, 520) ∨ spawnPoint r = (1550, 520) ∨
          spawnPoint r = (800, 50) ∨ spawnPoint r = (800, 990))) ∧
      (¬ s.kidSpawnTimer - dt ≤ 0 →
        (updateKidSpawning elapsed dt kidCount r s).1.kidSpawnTimer =
          s.kidSpawnTimer - dt ∧
        (updateKidSpawning elapsed dt kidCount r s).2 = none)) := by
  have hsp : spawnPoint r = (50, 520) ∨ spawnPoint r = (1550, 520) ∨
      spawnPoint r = (800, 50) ∨ spawnPoint r = (800, 990) := by
    fin_cases r <;> simp [spawnPoint]
  refine ⟨?_, ?_, by norm_num [rampMaxKids], by norm_num [rampMaxKids], ?_⟩
  · simp only [updateKidSpawning]
    split_ifs <;> rfl
  · intro hcap
    simp only [updateKidSpawning]
    rw [if_pos hcap]
    exact ⟨rfl, rfl⟩
  · intro hcap
    refine ⟨?_, ?_, ?_⟩
    · simp only [updateKidSpawning]
      rw [if_neg (not_le.mpr hcap)]
      by_cases ht : s.kidSpawnTimer - dt ≤ 0
      · rw [if_pos ht]; simpa using ht
      · rw [if_neg ht]; simpa using ht
    · intro ht
      simp only [updateKidSpawning]
      rw [if_neg (not_le.mpr hcap), if_pos ht]
      exact ⟨rfl, rfl, hsp⟩
    · intro ht
      simp only [updateKidSpawning]
      rw [if_neg (not_le.mpr hcap), if_neg ht]
      exact ⟨rfl, rfl⟩

/-- C8 witness: a capped tick at a concrete input — no spawn, timer
untouched. -/
theorem updateKidSpawning_spec_spot :
    (updateKidSpawning 0 1 5 0 ⟨3, 5, 10⟩).2 = none ∧
    (updateKidSpawning 0 1 5 0 ⟨3, 5, 10⟩).1.kidSpawnTimer = 5 :=
  (updateKidSpawning_spec 0 1 5 0 ⟨3, 5, 10⟩).2.1 (by norm_num [rampMaxKids])

/-! ### Claim theorems: chaos counterexample -/

/-- C1 (counterexample): in `W1` chaos starts at 0; after one full tick
the pickup's immediate `-0.5` delta (line 526), applied after the tick's
clamp, leaves the observable chaos level negative. -/
theorem chaos_negative_after_pickup_delta :
    W1.gameData.chaosLevel = 0 ∧ (update id false 0 1 W1).gameData.chaosLevel < 0 := by
  have hr1 : List.range 1 = [0] := by decide
  refine ⟨by norm_num [W1], ?_⟩
  norm_num [W1, update, advanceTime, updateChaos, updateChaosLevel, clampChaos,
    booksOnFloorCount, updateKidSpawningW, updateKidSpawning, rampMaxKids,
    checkBookPickup, pickupStep, Player.pickupBook, Book.pickup, Book.centerX,
    Book.centerY, Player.centerX, Player.centerY, withinDist, worldAwardXP, awardXP,
    awardFuel, awardLoop_zero, awardLoop_go, levelUp, xpToNextFor, Int.toNat_eq_zero,
    checkBookSnatching, snatchStep, checkBookShelving, shelveStep, isPlayerNearShelf,
    Shelf.hasEmptySlots, updateParticles, min_def, max_def, hr1, List.getD]

/-! ### Claim theorems: tick ordering and interaction passes -/

/-- C2 (counterexample): in `W2` book 0 lies on the floor before the tick
and is shelved by the end of the very same tick — the pickup pass hands
it to the player and the later shelving pass of the same `update` call
puts it on the shelf. -/
theorem pickup_then_shelve_same_tick :
    (W2.books.getD 0 defaultBook).isHeld = false ∧
    (W2.books.getD 0 defaultBook).isShelved = false ∧
    ((update id false 0 1 W2).books.getD 0 defaultBook).isShelved = true := by
  have hr1 : List.range 1 = [0] := by decide
  refine ⟨by norm_num [W2, List.getD], by norm_num [W2, List.getD], ?_⟩
  norm_num [W2, update, advanceTime, updateChaos, updateChaosLevel, clampChaos,
    booksOnFloorCount, updateKidSpawningW, updateKidSpawning, rampMaxKids,
    checkBookPickup, pickupStep, Player.pickupBook, Book.pickup, Book.centerX,
    Book.centerY, Player.centerX, Player.centerY, withinDist, worldAwardXP, awardXP,
    awardFuel, awardLoop_zero, awardLoop_go, levelUp, xpToNextFor, Int.toNat_eq_zero,
    checkBookSnatching, snatchStep, checkBookShelving, shelveStep, isPlayerNearShelf,
    Shelf.hasEmptySlots, Shelf.addBook, Player.shelveBook, updateParticles,
    min_def, max_def, hr1, List.getD]

/-- C2 (amended): the shelving pass runs after the pickup pass inside one
tick, so a book picked up this tick is immediately eligible: in `W2b` the
floor book is in the carried list once the tick's pickup pass has run,
and the same tick ends with it shelved. -/
theorem pickup_makes_book_immediately_shelvable :
    (W2b.books.getD 0 defaultBook).isHeld = false ∧
    (W2b.books.getD 0 defaultBook).isShelved = false ∧
    ((checkBookPickup (updateKidSpawningW 0 1 (updateChaos 1
        (advanceTime 1 W2b)))).player.map Player.carriedBooks) = some [0] ∧
    ((update id false 0 1 W2b).books.getD 0 defaultBook).isShelved = true := by
  have hr1 : List.range 1 = [0] := by decide
  refine ⟨by norm_num [W2b, List.getD], by norm_num [W2b, List.getD], ?_, ?_⟩ <;>
  norm_num [W2b, update, advanceTime, updateChaos, updateChaosLevel, clampChaos,
    booksOnFloorCount, updateKidSpawningW, updateKidSpawning, rampMaxKids,
    checkBookPickup, pickupStep, Player.pickupBook, Book.pickup, Book.centerX,
    Book.centerY, Player.centerX, Player.centerY, withinDist, worldAwardXP, awardXP,
    awardFuel, awardLoop_zero, awardLoop_go, levelUp, xpToNextFor, Int.toNat_eq_zero,
    checkBookSnatching, snatchStep, checkBookShelving, shelveStep, isPlayerNearShelf,
    Shelf.hasEmptySlots, Shelf.addBook, Player.shelveBook, updateParticles,
    min_def, max_def, hr1, List.getD]

/-- C3 (counterexample): in `W3` the pickup pass pushes an upgrade
interrupt (the 5 xp crosses the level-1 threshold), yet the same tick
still runs the shelving pass: the tick ends with the interrupt logged and
`booksShelved` incremented. -/
theorem interrupt_tick_still_runs_passes :
    W3.gameData.booksShelved = 0 ∧
    (update id false 0 1 W3).requests = [StateRequest.upgradeSelection] ∧
    (update id false 0 1 W3).gameData.booksShelved = 1 := by
  have hr1 : List.range 1 = [0] := by decide
  refine ⟨by norm_num [W3], ?_, ?_⟩ <;>
  norm_num [W3, update, advanceTime, updateChaos, updateChaosLevel, clampChaos,
    booksOnFloorCount, updateKidSpawningW, updateKidSpawning, rampMaxKids,
    checkBookPickup, pickupStep, Player.pickupBook, Book.pickup, Book.centerX,
    Book.centerY, Player.centerX, Player.centerY, withinDist, worldAwardXP, awardXP,
    awardFuel, awardLoop_zero, awardLoop_go, levelUp, xpToNextFor, Int.toNat_eq_zero,
    checkBookSnatching, snatchStep, checkBookShelving, shelveStep, isPlayerNearShelf,
    Shelf.hasEmptySlots, Shelf.addBook, Player.shelveBook, updateParticles,
    min_def, max_def, hr1, List.getD]

/-- C3 (amended): the only early exits of a tick are the pause key, the
paused flag, the victory check and the defeat check; a tick that pushes
an upgrade interrupt during its pickup pass does not return early — the
snatch, shelving and particle passes still run in the same tick. -/
theorem update_continues_after_interrupt (su : World → World) (r : Fin 4) (dt : ℚ)
    (w : World)
    (h1 : w.gameData.isPaused = false)
    (h2 : w.gameData.elapsedTime + dt < w.gameData.targetTime)
    (h3 : (updateChaos dt (advanceTime dt w)).gameData.chaosLevel < w.gameData.maxChaos)
    (h4 : StateRequest.upgradeSelection ∈
      (checkBookPickup (updateKidSpawningW r dt (su (updateChaos dt
        (advanceTime dt w))))).requests) :
    update su false r dt w =
      updateParticles dt (checkBookShelving (checkBookSnatching (checkBookPickup
        (updateKidSpawningW r dt (su (updateChaos dt (advanceTime dt w))))))) := by
  simp only [update]
  rw [if_neg (fun hfe => Bool.noConfusion hfe), h1,
    if_neg (fun hfe => Bool.noConfusion hfe)]
  rw [if_neg (show ¬((advanceTime dt w).gameData.targetTime ≤
      (advanceTime dt w).gameData.elapsedTime) by
    simp only [advanceTime]
    exact not_le.mpr h2)]
  rw [if_neg (show ¬((updateChaos dt (advanceTime dt w)).gameData.maxChaos ≤
      (updateChaos dt (advanceTime dt w)).gameData.chaosLevel) by
    have hmax : (updateChaos dt (advanceTime dt w)).gameData.maxChaos =
        w.gameData.maxChaos := by
      simp [updateChaos, advanceTime]
    rw [hmax]
    exact not_le.mpr h3)]

/-- C3 witness: the amended statement applied to the concrete interrupt
tick of `W3`. -/
theorem update_continues_after_interrupt_spot :
    update id false 0 1 W3 =
      updateParticles 1 (checkBookShelving (checkBookSnatching (checkBookPickup
        (updateKidSpawningW 0 1 (id (updateChaos 1 (advanceTime 1 W3))))))) := by
  have hr1 : List.range 1 = [0] := by decide
  apply update_continues_after_interrupt
  · rfl
  · norm_num [W3]
  · norm_num [W3, advanceTime, updateChaos, updateChaosLevel, clampChaos,
      booksOnFloorCount, min_def, max_def]
  · norm_num [W3, advanceTime, updateChaos, updateChaosLevel, clampChaos,
      booksOnFloorCount, updateKidSpawningW, updateKidSpawning, rampMaxKids,
      checkBookPickup, pickupStep, Player.pickupBook, Book.pickup, Book.centerX,
      Book.centerY, Player.centerX, Player.centerY, withinDist, worldAwardXP, awardXP,
      awardFuel, awardLoop_zero, awardLoop_go, levelUp, xpToNextFor, Int.toNat_eq_zero,
      min_def, max_def, hr1, List.getD]

/-! ### Claim theorems: snatch pass mutation discipline -/

/-- C4: evaluation of `checkBookSnatching` at the failing input `W4`.
Before the pass, kid 1 carries book 1 with drop timer 7 in the `carrying`
state; the first snatch fills the player's single carry slot, and the
scan still clears kid 1's carried reference and drop timer without
transferring the book and without forcing the kid to `fleeing` — the
failed snatch is not a no-op. -/
theorem snatch_not_atomic_at_capacity :
    (W4.kids.getD 1 defaultKid).carriedBook = some 1 ∧
    (W4.kids.getD 1 defaultKid).dropBookTimer = 7 ∧
    (W4.kids.getD 1 defaultKid).state = KidState.carrying ∧
    ((checkBookSnatching W4).kids.getD 1 defaultKid).carriedBook = none ∧
    ((checkBookSnatching W4).kids.getD 1 defaultKid).dropBookTimer = 0 ∧
    ((checkBookSnatching W4).kids.getD 1 defaultKid).state = KidState.carrying ∧
    ((checkBookSnatching W4).player.map Player.carriedBooks) = some [0] := by
  have hr2 : List.range 2 = [0, 1] := by decide
  refine ⟨by norm_num [W4, List.getD], by norm_num [W4, List.getD],
    by norm_num [W4, List.getD], ?_, ?_, ?_, ?_⟩ <;>
  norm_num [W4, checkBookSnatching, snatchStep, Player.pickupBook, Book.pickup,
    Kid.centerX, Kid.centerY, Player.centerX, Player.centerY, withinDist,
    worldAwardXP, awardXP, awardFuel, awardLoop_zero, awardLoop_go, levelUp,
    xpToNextFor, Int.toNat_eq_zero, hr2, List.getD]

/-- C5: evaluation of `checkBookSnatching` at the failing input `W5`.
Before the pass each book is referenced by exactly one container (its
kid); after it, book 1 is referenced by none: its `isHeld` flag keeps it
off the floor list, the player carries only book 0, both kids' carried
references are cleared, and the shelf slots are untouched — the book is
orphaned. -/
theorem snatch_orphans_book :
    (W5.kids.map Kid.carriedBook) = [some 0, some 1] ∧
    ((checkBookSnatching W5).books.getD 1 defaultBook).isHeld = true ∧
    ((checkBookSnatching W5).books.getD 1 defaultBook).isShelved = false ∧
    ((checkBookSnatching W5).player.map Player.carriedBooks) = some [0] ∧
    ((checkBookSnatching W5).kids.map Kid.carriedBook) = [none, none] ∧
    ((checkBookSnatching W5).shelves.map Shelf.slots) = [[]] := by
  have hr2 : List.range 2 = [0, 1] := by decide
  refine ⟨by norm_num [W5], ?_, ?_, ?_, ?_, ?_⟩ <;>
  norm_num [W5, checkBookSnatching, snatchStep, Player.pickupBook, Book.pickup,
    Kid.centerX, Kid.centerY, Player.centerX, Player.centerY, withinDist,
    worldAwardXP, awardXP, awardFuel, awardLoop_zero, awardLoop_go, levelUp,
    xpToNextFor, Int.toNat_eq_zero, hr2, List.getD]

/-! ### Claim theorems: end-of-run priority -/

/-- C10: when, after the tick's time advance, the elapsed time has reached
the target while the chaos level already sits at or above the maximum,
the tick requests the victory transition and returns at once: the chaos
update and the defeat check never run, and the world is otherwise
untouched. -/
theorem update_victory_priority (su : World → World) (r : Fin 4) (dt : ℚ) (w : World)
    (h1 : w.gameData.isPaused = false)
    (h2 : w.gameData.targetTime ≤ w.gameData.elapsedTime + dt)
    (h3 : w.gameData.maxChaos ≤ w.gameData.chaosLevel) :
    update su false r dt w =
      { w with
        gameData := { w.gameData with elapsedTime := w.gameData.elapsedTime + dt },
        requests := w.requests ++ [StateRequest.victory] } := by
  simp only [update]
  rw [if_neg (fun hfe => Bool.noConfusion hfe), h1,
    if_neg (fun hfe => Bool.noConfusion hfe)]
  rw [if_pos (show (advanceTime dt w).gameData.targetTime ≤
      (advanceTime dt w).gameData.elapsedTime by
    simp only [advanceTime]
    exact h2)]
  simp [advanceTime, h1]

/-- C10 witness: the priority applied to `Wv`, where both end conditions
hold on the same tick. -/
theorem update_victory_priority_spot :
    update id false 0 1 Wv =
      { Wv with
        gameData := { Wv.gameData with elapsedTime := Wv.gameData.elapsedTime + 1 },
        requests := Wv.requests ++ [StateRequest.victory] } :=
  update_victory_priority id 0 1 Wv rfl (by norm_num [Wv]) (by norm_num [Wv])

end Librarian
